import Mathlib

/-!
Shallow embedding of the GovChat Tree Explorer graph engine
(src/govchat-frontend/components/ui/tree-explorer.tsx).

The component keeps its state in React `useState` cells (`nodes`, `edges`,
`expandedNodes`, `loadingNodes`, `isInitialized`).  We model those cells as one
record `TreeState`; every `setX(updater)` call is applied to the record in
program order.  An expansion (`handleNodeExpand`) has exactly one suspension
point, the awaited resolver call, so it is split into two atomic phases:

* `expandStart`  — lines 94-118: the synchronous prefix up to the resolver
  call.  It returns `none` when the function returns early without invoking
  the resolver (invalid id, or the id is already in `expandedNodes` /
  `loadingNodes`), and `some s` with the updated state otherwise.
* `expandFinish` — lines 120-243: the synchronous continuation that runs when
  the resolver settles, parameterised by the resolver outcome and by the
  stream of `Math.random()` draws (one rational per created child).

A resolver response that is `null`, lacks `.similar`, or has an empty list all
take the same `else` branch of line 123 in the source (JS truthiness), so the
outcome type only distinguishes `ok similar` (with the `0 < length` test
applied as in the source) from a rejected promise (`failed`).
-/

namespace GovChat

/-- A 2-D canvas position; coordinates are exact rationals. -/
structure Position where
  x : ℚ
  y : ℚ
deriving DecidableEq

/-- The `data` payload of a graph node (`TreeNodeData` in lib/types.ts), with
the fields the engine reads or writes; absent optional fields are `none`,
absent booleans are `false` (JS `undefined` is falsy). -/
structure TreeNodeData where
  title : String := ""
  description : Option String := none
  agency : Option String := none
  api_url : Option String := none
  similarity : Option ℚ := none
  datasetId : Option String := none
  isRoot : Bool := false
  isExpanded : Bool := false
  isLoading : Bool := false
  childCount : Option ℤ := none
deriving DecidableEq

/-- A React-Flow node as the engine builds it: its id, position and data
payload (the purely presentational `type` field is constant `dataset`). -/
structure Node where
  id : String
  position : Position
  data : TreeNodeData
deriving DecidableEq

/-- A React-Flow edge as the engine builds it: id, source and target node ids
(the presentational `type`/`animated`/`style` fields carry no graph
information and are omitted). -/
structure Edge where
  id : String
  source : String
  target : String
deriving DecidableEq

/-- One entry of the resolver's `similar` list (`SimilarResponse` in
lib/types.ts). -/
structure SimilarDataset where
  id : String
  title : String := ""
  description : String := ""
  agency : String := ""
  api_url : String := ""
  similarity_score : ℚ := 0
deriving DecidableEq

/-- One initial dataset hit (`RetrievedSource` in lib/types.ts); `id` is
optional and may be the empty string, both of which are falsy in JS. -/
structure RetrievedSource where
  source : String := ""
  similarity : Option ℚ := none
  preview : Option String := none
  id : Option String := none
  agency : Option String := none
  api_url : Option String := none
deriving DecidableEq

/-- The component's `useState` cells gathered into one state record. -/
structure TreeState where
  nodes : List Node
  edges : List Edge
  expandedNodes : Finset String
  loadingNodes : Finset String
  isInitialized : Bool
deriving DecidableEq

/-- The outcome of the awaited `chatAPI.getSimilarDatasets` call: a fulfilled
promise carrying a `similar` list, or a rejected promise (caught at line
220). -/
inductive ResolverOutcome where
  | ok (similar : List SimilarDataset)
  | failed
deriving DecidableEq

/-- List map that also passes the element index, as JS `Array.prototype.map`
does; `k` is the index of the head. -/
def mapWithIndex (f : ℕ → α → β) : ℕ → List α → List β
  | _, [] => []
  | k, a :: as => f k a :: mapWithIndex f (k + 1) as

/-- Line 96: the guard `!datasetId || datasetId.startsWith('dataset-')`;
a string is falsy exactly when it is empty. -/
def validDatasetId (d : String) : Bool :=
  !(d == "") && !(d.startsWith ("dataset-"))

/-- Lines 106-118: mark every node whose `data.datasetId` equals the expanded
id as loading. -/
def setLoadingFlag (d : String) (nodes : List Node) : List Node :=
  nodes.map fun n =>
    if n.data.datasetId = some d then
      { n with data := { n.data with isLoading := true } }
    else n

/-- Lines 94-118 of `handleNodeExpand`: the synchronous prefix before the
resolver call.  `none` means the call returned early (no resolver call, no
state change); `some s` means the resolver is invoked from state `s`. -/
def expandStart (s : TreeState) (d : String) : Option TreeState :=
  if validDatasetId d = false then none
  else if d ∈ s.expandedNodes ∨ d ∈ s.loadingNodes then none
  else some { s with
    loadingNodes := insert d s.loadingNodes,
    nodes := setLoadingFlag d s.nodes }

/-- The horizontal spacing constant of line 140. -/
def SPACING_X : ℚ := 320

/-- The vertical row-height constant of line 141. -/
def ROW_HEIGHT : ℚ := 280

/-- Lines 139-142: the position of child `i` of `n` below a parent. -/
def childPosition (parentPos : Position) (n : ℕ) (i : ℕ) : Position :=
  { x := parentPos.x + ((i : ℚ) - ((n : ℚ) - 1) / 2) * SPACING_X,
    y := parentPos.y + ROW_HEIGHT }

/-- The layout function: positions for all `n` children of a parent. -/
def placeChildren (parentPos : Position) (n : ℕ) : List Position :=
  (List.range n).map (childPosition parentPos n)

/-- Line 151: `Math.floor(Math.random() * 4) + 1`, with the random draw `r`
made an explicit parameter. -/
def mockChildCount (r : ℚ) : ℤ :=
  Int.floor (r * 4) + 1

/-- Line 135: the id of a child created while expanding dataset `d`. -/
def childNodeId (d : String) (childId : String) : String :=
  "child-" ++ d ++ "-" ++ childId

/-- Lines 134-156: one child node created by a successful expansion; `total`
is the length of the resolver's `similar` list, `idx` the child index and
`draw` the `Math.random()` value used for the mock child count. -/
def mkChildNode (d : String) (parent : Node) (total : ℕ) (idx : ℕ)
    (ds : SimilarDataset) (draw : ℚ) : Node :=
  { id := childNodeId d ds.id,
    position := childPosition parent.position total idx,
    data := {
      title := ds.title,
      description := some ds.description,
      agency := some ds.agency,
      api_url := some ds.api_url,
      similarity := some ds.similarity_score,
      datasetId := some ds.id,
      isExpanded := false,
      childCount := some (mockChildCount draw) } }

/-- The full child-node batch of lines 134-156. -/
def childNodesFor (d : String) (parent : Node) (similar : List SimilarDataset)
    (rng : ℕ → ℚ) : List Node :=
  mapWithIndex (fun i ds => mkChildNode d parent similar.length i ds (rng i)) 0 similar

/-- Lines 178-188: one edge from the found parent node to a child. -/
def mkChildEdge (d : String) (parent : Node) (ds : SimilarDataset) : Edge :=
  { id := "edge-" ++ parent.id ++ "-" ++ childNodeId d ds.id,
    source := parent.id,
    target := childNodeId d ds.id }

/-- The node update shared verbatim by the non-empty branch (lines 160-172,
with `count = similar.length`), the empty branch (lines 204-218) and the
catch branch (lines 222-236), both with `count = 0`: every node whose
`data.datasetId` matches is marked expanded, not loading, with the given
child count. -/
def markExpanded (d : String) (count : ℤ) (nodes : List Node) : List Node :=
  nodes.map fun n =>
    if n.data.datasetId = some d then
      { n with data := { n.data with
          isExpanded := true, isLoading := false, childCount := some count } }
    else n

/-- Lines 120-243 of `handleNodeExpand`: the continuation after the resolver
settles.  The `finally` block (lines 237-243) removes `d` from
`loadingNodes` on every path; `expandedNodes` gains `d` only in the
non-empty success branch (line 196), even when no parent node is found
(line 129 returns the nodes unchanged but line 196 still runs). -/
def expandFinish (s : TreeState) (d : String) (outcome : ResolverOutcome)
    (rng : ℕ → ℚ) : TreeState :=
  match outcome with
  | ResolverOutcome.ok similar =>
    if 0 < similar.length then
      match s.nodes.find? (fun n => n.data.datasetId == some d) with
      | some parent =>
        { s with
          nodes := markExpanded d (similar.length : ℤ) s.nodes ++
            childNodesFor d parent similar rng,
          edges := s.edges ++ similar.map (mkChildEdge d parent),
          expandedNodes := insert d s.expandedNodes,
          loadingNodes := s.loadingNodes.erase d }
      | none =>
        { s with
          expandedNodes := insert d s.expandedNodes,
          loadingNodes := s.loadingNodes.erase d }
    else
      { s with
        nodes := markExpanded d 0 s.nodes,
        loadingNodes := s.loadingNodes.erase d }
  | ResolverOutcome.failed =>
      { s with
        nodes := markExpanded d 0 s.nodes,
        loadingNodes := s.loadingNodes.erase d }

/-- One complete `handleNodeExpand` run whose resolver call (if reached)
settles with `outcome`.  The boolean records whether the resolver was
invoked; when it is `false` the returned state is the input state. -/
def expandWith (s : TreeState) (d : String) (outcome : ResolverOutcome)
    (rng : ℕ → ℚ) : TreeState × Bool :=
  match expandStart s d with
  | none => (s, false)
  | some s1 => (expandFinish s1 d outcome rng, true)

/-- JS `a || b` for an optional string `a` whose empty value is falsy. -/
def orDefault (o : Option String) (dflt : String) : String :=
  match o with
  | some v => if v == "" then dflt else v
  | none => dflt

/-- JS `a || undefined` for an optional string (line 271). -/
def strOrUndef (o : Option String) : Option String :=
  match o with
  | some v => if v == "" then none else some v
  | none => none

/-- JS `a || undefined` for an optional number (line 274); `0` is falsy. -/
def numOrUndef (o : Option ℚ) : Option ℚ :=
  match o with
  | some v => if v = 0 then none else some v
  | none => none

/-- Line 263 / 275: `dataset.id || 'dataset-${index}'`. -/
def hitNodeId (hit : RetrievedSource) (idx : ℕ) : String :=
  orDefault hit.id ("dataset-" ++ toString idx)

/-- Line 277: `dataset.id ? 3 : 0`. -/
def hitChildCount (hit : RetrievedSource) : ℤ :=
  match hit.id with
  | some v => if v == "" then 0 else 3
  | none => 0

/-- The horizontal spacing of the initial row (line 266). -/
def INIT_SPACING_X : ℚ := 400

/-- The y coordinate of the initial row (line 267). -/
def INIT_ROW_Y : ℚ := 200

/-- Lines 250-260: the root node created by `initializeTree`. -/
def rootNode (query : String) : Node :=
  { id := "root",
    position := { x := 0, y := 0 },
    data := {
      title := query,
      description := some ("Exploring datasets related to: \"" ++ query ++ "\""),
      isRoot := true,
      isExpanded := true } }

/-- Lines 262-281: the initial dataset node for hit `idx` of `total`. -/
def hitNode (total : ℕ) (idx : ℕ) (hit : RetrievedSource) : Node :=
  { id := hitNodeId hit idx,
    position := {
      x := ((idx : ℚ) - ((total : ℚ) - 1) / 2) * INIT_SPACING_X,
      y := INIT_ROW_Y },
    data := {
      title := hit.source,
      description := strOrUndef hit.preview,
      agency := hit.agency,
      api_url := hit.api_url,
      similarity := numOrUndef hit.similarity,
      datasetId := some (hitNodeId hit idx),
      isExpanded := false,
      childCount := some (hitChildCount hit) } }

/-- Lines 283-290: the initial edge from the root to hit `idx`. -/
def hitEdge (hit : RetrievedSource) (idx : ℕ) : Edge :=
  { id := "root-" ++ orDefault hit.id (toString idx),
    source := "root",
    target := hitNodeId hit idx }

/-- Lines 247-298: `initializeTree`, a no-op when already initialized,
otherwise replacing nodes and edges with the fresh root row (the
`expandedNodes`/`loadingNodes` cells are untouched here; `handleReset`
clears them before calling). -/
def initializeTree (query : String) (hits : List RetrievedSource)
    (s : TreeState) : TreeState :=
  if s.isInitialized then s
  else
    { s with
      nodes := rootNode query :: mapWithIndex (hitNode hits.length) 0 hits,
      edges := mapWithIndex (fun i h => hitEdge h i) 0 hits,
      isInitialized := true }

/-- Lines 301-306: `handleReset` clears both id sets and the initialized
flag, then reinitializes. -/
def handleReset (query : String) (hits : List RetrievedSource)
    (s : TreeState) : TreeState :=
  initializeTree query hits
    { s with expandedNodes := ∅, loadingNodes := ∅, isInitialized := false }

/-- The component's state at mount: all cells empty (lines 54-58). -/
def initialState : TreeState :=
  { nodes := [], edges := [], expandedNodes := ∅, loadingNodes := ∅,
    isInitialized := false }

/-- One atomic event of the engine: the prefix of an expansion, the settling
of an expansion's resolver call, the mount effect (lines 309-313, which
initializes only for a non-empty hit list), or a reset.  A trace may
interleave these arbitrarily, which over-approximates the schedules the
single-threaded event loop can produce. -/
inductive Step where
  | start (d : String)
  | settle (d : String) (outcome : ResolverOutcome) (rng : ℕ → ℚ)
  | mount (query : String) (hits : List RetrievedSource)
  | reset (query : String) (hits : List RetrievedSource)

/-- The state transition of one atomic event. -/
def applyStep (s : TreeState) : Step → TreeState
  | Step.start d => (expandStart s d).getD s
  | Step.settle d outcome rng => expandFinish s d outcome rng
  | Step.mount q hits => if 0 < hits.length then initializeTree q hits s else s
  | Step.reset q hits => handleReset q hits s

/-- The state after a trace of events from the mount state. -/
def run (steps : List Step) : TreeState :=
  steps.foldl applyStep initialState

/-! Concrete data used by counterexamples and witnesses: the spec's §8
scenario hits (`abc`/`def`), two parents `p1`/`p2` that both discover the
same external dataset `D`, and fixed random streams. -/

/-- The hit `{id: "abc", title: "Rainfall"}` of the spec's scenario 7. -/
def hitAbc : RetrievedSource := { source := "Rainfall", id := some ("abc") }

/-- The hit `{id: "def", title: "Temperature"}` of the spec's scenario 7. -/
def hitDef : RetrievedSource := { source := "Temperature", id := some ("def") }

/-- A first parent hit with external dataset id `p1`. -/
def hitP1 : RetrievedSource := { source := "P1", id := some ("p1") }

/-- A second parent hit with external dataset id `p2`. -/
def hitP2 : RetrievedSource := { source := "P2", id := some ("p2") }

/-- A resolver result with external dataset id `D`, returned for both
parents. -/
def dsD : SimilarDataset := { id := "D", title := "Shared" }

/-- A resolver result with external dataset id `x1`. -/
def dsX : SimilarDataset := { id := "x1", title := "X" }

/-- A resolver result with external dataset id `y1`. -/
def dsY : SimilarDataset := { id := "y1", title := "Y" }

/-- A random stream that always draws `0`. -/
def rng0 : ℕ → ℚ := fun _ => 0

/-- A random stream that always draws `1/2`. -/
def rngHalf : ℕ → ℚ := fun _ => (1 : ℚ) / 2

/-- A throwaway node used as `getD` default. -/
def dummyNode : Node := rootNode ("")

/-- A throwaway edge used as `getD` default. -/
def dummyEdge : Edge := { id := "", source := "", target := "" }

/-- A throwaway position used as `getD` default. -/
def dummyPos : Position := { x := 0, y := 0 }

/-- A throwaway hit used as `getD` default. -/
def dummyHit : RetrievedSource := {}

/-- The spec's scenario-7 state: a reset with hits `abc` and `def`. -/
def s7 : TreeState := handleReset ("climate data") [hitAbc, hitDef] initialState

/-- A state in which the same external dataset `D` has surfaced as a child
under the two different parents `p1` and `p2`, built by the engine's own
operations: reset with `p1`, `p2`, then expand each parent with a resolver
answer containing `D`. -/
def stateTwoParents : TreeState :=
  (expandWith ((expandWith (handleReset ("q") [hitP1, hitP2] initialState)
    ("p1") (ResolverOutcome.ok [dsD]) rng0).1) ("p2") (ResolverOutcome.ok [dsD]) rng0).1

/-- A state containing the second-generation node `child-abc-x1` (node id and
external dataset id differ), built by resetting with `abc` and expanding it
with a resolver answer containing `x1`. -/
def stateSecondGen : TreeState :=
  (expandWith (handleReset ("q") [hitAbc] initialState)
    ("abc") (ResolverOutcome.ok [dsX]) rng0).1

/-! General-purpose lemmas about the embedding's list and set operations. -/

/-- Length is preserved by `mapWithIndex`. -/
theorem mapWithIndex_length (f : ℕ → α → β) (k : ℕ) (l : List α) :
    (mapWithIndex f k l).length = l.length := by
  induction l generalizing k with
  | nil => rfl
  | cons a as ih => simp [mapWithIndex, ih]

/-- Mapping a projection over `mapWithIndex` collapses to a plain map when
the projection forgets the index. -/
theorem mapWithIndex_map_proj (f : ℕ → α → β) (g : β → γ) (h : α → γ)
    (hfg : ∀ i a, g (f i a) = h a) (k : ℕ) (l : List α) :
    (mapWithIndex f k l).map g = l.map h := by
  induction l generalizing k with
  | nil => rfl
  | cons a as ih => simp [mapWithIndex, hfg, ih]

/-- Every element of `mapWithIndex f k l` is `f i a` for some index `i` and
some element `a` of `l`. -/
theorem mapWithIndex_mem {b : β} (f : ℕ → α → β) (k : ℕ) (l : List α)
    (hb : b ∈ mapWithIndex f k l) : ∃ i, ∃ a ∈ l, b = f i a := by
  induction l generalizing k with
  | nil => simp [mapWithIndex] at hb
  | cons a as ih =>
    simp only [mapWithIndex, List.mem_cons] at hb
    rcases hb with hb | hb
    · exact ⟨k, a, by simp, hb⟩
    · obtain ⟨i, x, hx, hbx⟩ := ih (k + 1) hb
      exact ⟨i, x, by simp [hx], hbx⟩

/-- The `i`-th element of `mapWithIndex f k l`. -/
theorem mapWithIndex_getD (f : ℕ → α → β) (k i : ℕ) (l : List α) (a : α)
    (b : β) (h : i < l.length) :
    (mapWithIndex f k l).getD i b = f (k + i) (l.getD i a) := by
  induction l generalizing k i with
  | nil => simp at h
  | cons x xs ih =>
    cases i with
    | zero => simp [mapWithIndex]
    | succ j =>
      have hj : j < xs.length := by simpa using h
      simp only [mapWithIndex, List.getD_cons_succ]
      rw [ih (k + 1) j hj]
      ring_nf

/-- Filtering `mapWithIndex` by a predicate that rejects every image gives
the empty list. -/
theorem mapWithIndex_filter_none (f : ℕ → α → β) (p : β → Bool)
    (hp : ∀ i a, p (f i a) = false) (k : ℕ) (l : List α) :
    (mapWithIndex f k l).filter p = [] := by
  induction l generalizing k with
  | nil => rfl
  | cons a as ih => simp [mapWithIndex, List.filter_cons, hp, ih]

/-- Characterization of a successful `expandStart`: the guard of lines 96-102
passed, and the state change is exactly lines 103-118. -/
theorem expandStart_eq_some {s s1 : TreeState} {d : String}
    (h : expandStart s d = some s1) :
    validDatasetId d = true ∧ d ∉ s.expandedNodes ∧ d ∉ s.loadingNodes ∧
      s1 = { s with
        loadingNodes := insert d s.loadingNodes,
        nodes := setLoadingFlag d s.nodes } := by
  unfold expandStart at h
  split at h
  · exact absurd h (by simp)
  · split at h
    · exact absurd h (by simp)
    · rename_i h1 h2
      push_neg at h2
      refine ⟨by simpa using h1, h2.1, h2.2, ?_⟩
      exact (Option.some_injective _ h).symm

/-- `markExpanded` keeps the list length. -/
theorem markExpanded_length (d : String) (c : ℤ) (nodes : List Node) :
    (markExpanded d c nodes).length = nodes.length := by
  simp [markExpanded]

/-- `setLoadingFlag` keeps the list length. -/
theorem setLoadingFlag_length (d : String) (nodes : List Node) :
    (setLoadingFlag d nodes).length = nodes.length := by
  simp [setLoadingFlag]

/-- After `markExpanded d c`, every node carrying dataset id `d` is expanded,
not loading, with child count `c`. -/
theorem markExpanded_spec (d : String) (c : ℤ) (nodes : List Node) :
    ∀ n ∈ markExpanded d c nodes, n.data.datasetId = some d →
      n.data.isExpanded = true ∧ n.data.isLoading = false ∧
        n.data.childCount = some c := by
  intro n hn hd
  simp only [markExpanded, List.mem_map] at hn
  obtain ⟨m, _, rfl⟩ := hn
  by_cases h : m.data.datasetId = some d
  · simp [h]
  · simp only [if_neg h] at hd ⊢
    exact absurd hd h

/-- On every settling path, `d` is removed from `loadingNodes` and
`expandedNodes` either stays or gains exactly `d`. -/
theorem expandFinish_sets (s : TreeState) (d : String) (o : ResolverOutcome)
    (rng : ℕ → ℚ) :
    (expandFinish s d o rng).loadingNodes = s.loadingNodes.erase d ∧
      ((expandFinish s d o rng).expandedNodes = s.expandedNodes ∨
        (expandFinish s d o rng).expandedNodes = insert d s.expandedNodes) := by
  unfold expandFinish
  match o with
  | ResolverOutcome.ok similar =>
    dsimp only
    split
    · split <;> simp
    · simp
  | ResolverOutcome.failed => simp

/-- Membership of a `getD` lookup whose index is in range. -/
theorem getD_mem_of_lt {l : List α} {i : ℕ} (h : i < l.length) (b : α) :
    l.getD i b ∈ l := by
  rw [List.getD_eq_getElem l b h]
  exact l.getElem_mem h

/-- One atomic event preserves disjointness of `loadingNodes` and
`expandedNodes`. -/
theorem applyStep_disjoint (s : TreeState) (st : Step)
    (h : s.loadingNodes ∩ s.expandedNodes = ∅) :
    (applyStep s st).loadingNodes ∩ (applyStep s st).expandedNodes = ∅ := by
  have hmem : ∀ x, ¬(x ∈ s.loadingNodes ∧ x ∈ s.expandedNodes) := by
    intro x hx
    have hx2 := Finset.mem_inter.mpr hx
    simp [h] at hx2
  cases st with
  | start d =>
    dsimp only [applyStep]
    cases hs : expandStart s d with
    | none => simpa using h
    | some s1 =>
      obtain ⟨hval, hexp, hload, rfl⟩ := expandStart_eq_some hs
      dsimp only [Option.getD]
      rw [Finset.eq_empty_iff_forall_not_mem]
      intro x hx
      rw [Finset.mem_inter, Finset.mem_insert] at hx
      rcases hx with ⟨hx1 | hx1, hx2⟩
      · exact hexp (hx1 ▸ hx2)
      · exact hmem x ⟨hx1, hx2⟩
  | settle d o rng =>
    obtain ⟨hl, he⟩ := expandFinish_sets s d o rng
    dsimp only [applyStep]
    rw [Finset.eq_empty_iff_forall_not_mem]
    intro x hx
    rw [Finset.mem_inter, hl] at hx
    obtain ⟨hx1, hx2⟩ := hx
    have hx1m := Finset.mem_of_mem_erase hx1
    have hxd : x ≠ d := Finset.ne_of_mem_erase hx1
    rcases he with he | he
    · rw [he] at hx2
      exact hmem x ⟨hx1m, hx2⟩
    · rw [he, Finset.mem_insert] at hx2
      rcases hx2 with rfl | hx2
      · exact hxd rfl
      · exact hmem x ⟨hx1m, hx2⟩
  | mount q hits =>
    dsimp only [applyStep]
    split
    · unfold initializeTree
      split
      · exact h
      · exact h
    · exact h
  | reset q hits =>
    dsimp only [applyStep]
    simp [handleReset, initializeTree]

/-- Disjointness is preserved along any fold of atomic events. -/
theorem foldl_applyStep_disjoint : ∀ (steps : List Step) (s : TreeState),
    s.loadingNodes ∩ s.expandedNodes = ∅ →
    (steps.foldl applyStep s).loadingNodes ∩
      (steps.foldl applyStep s).expandedNodes = ∅
  | [], _, h => h
  | st :: steps, s, h =>
    foldl_applyStep_disjoint steps (applyStep s st) (applyStep_disjoint s st h)

/-- C9: at every observable point of every trace of operations, the set of
pending (loading) ids and the set of expanded ids are disjoint; observable
points are the boundaries between the engine's atomic, suspension-free
phases. -/
theorem C9_pending_expanded_disjoint (steps : List Step) :
    (run steps).loadingNodes ∩ (run steps).expandedNodes = ∅ :=
  foldl_applyStep_disjoint steps initialState (by simp [initialState])

/-- C3: a second `handleNodeExpand` call on the same dataset id, issued after
the first call's synchronous prefix and before its resolver settles, is a
silent no-op: the first call invokes the resolver (flag `true`), the second
returns the state unchanged without invoking it (flag `false`). -/
theorem C3_duplicate_expand_noop (s s1 : TreeState) (d : String)
    (outcome outcome2 : ResolverOutcome) (rng rng2 : ℕ → ℚ)
    (hstart : expandStart s d = some s1) :
    expandWith s d outcome rng = (expandFinish s1 d outcome rng, true) ∧
    expandWith s1 d outcome2 rng2 = (s1, false) := by
  obtain ⟨hval, hexp, hload, hs1⟩ := expandStart_eq_some hstart
  constructor
  · unfold expandWith
    rw [hstart]
  · have hnone : expandStart s1 d = none := by
      subst hs1
      unfold expandStart
      rw [if_neg (by simp [hval]), if_pos (Or.inr (Finset.mem_insert_self d _))]
    unfold expandWith
    rw [hnone]

/-- Witness for C3 at the spec's scenario state and dataset `abc`. -/
theorem C3_duplicate_expand_noop_witness :
    expandStart s7 ("abc") = some ((expandStart s7 ("abc")).getD initialState) ∧
    expandWith ((expandStart s7 ("abc")).getD initialState) ("abc")
        (ResolverOutcome.ok [dsX]) rng0
      = ((expandStart s7 ("abc")).getD initialState, false) :=
  ⟨rfl, (C3_duplicate_expand_noop s7 _ ("abc") (ResolverOutcome.ok [dsX])
      (ResolverOutcome.ok [dsX]) rng0 rng0 rfl).2⟩

/-- Counterexample to C4: after a resolver failure the node is marked
`isExpanded = true`, and the entire resulting state is identical to the one
an empty successful result produces — there is no failure state distinct
from `expanded`. -/
theorem C4_counterexample :
    ((expandWith s7 ("abc") ResolverOutcome.failed rng0).1.nodes.filter
        (fun n => n.data.datasetId == some ("abc"))).map (fun n => n.data.isExpanded)
      = [true] ∧
    (expandWith s7 ("abc") ResolverOutcome.failed rng0).1
      = (expandWith s7 ("abc") (ResolverOutcome.ok []) rng0).1 :=
  ⟨by decide, rfl⟩

/-- C4 as amended: on resolver failure nothing is thrown (the settling
function is total), node and edge collections keep their size, the failing
node is marked `isExpanded := true`, `isLoading := false`,
`childCount := some 0`, and the resulting state is exactly the state an
empty successful result yields — failure is not a state distinct from
`expanded`. -/
theorem C4_failure_state (s : TreeState) (d : String) (rng rng2 : ℕ → ℚ) :
    (expandFinish s d ResolverOutcome.failed rng).nodes.length = s.nodes.length ∧
    (expandFinish s d ResolverOutcome.failed rng).edges = s.edges ∧
    expandFinish s d ResolverOutcome.failed rng
      = expandFinish s d (ResolverOutcome.ok []) rng2 ∧
    ∀ n ∈ (expandFinish s d ResolverOutcome.failed rng).nodes,
      n.data.datasetId = some d →
        n.data.isExpanded = true ∧ n.data.isLoading = false ∧
          n.data.childCount = some 0 := by
  refine ⟨?_, rfl, rfl, ?_⟩
  · exact markExpanded_length d 0 s.nodes
  · intro n hn hd
    exact markExpanded_spec d 0 s.nodes n hn hd

/-- Witness for C4's amended statement at the scenario state. -/
theorem C4_failure_state_witness :
    ((expandFinish s7 ("abc") ResolverOutcome.failed rng0).nodes.getD 1
        dummyNode).data.isExpanded = true ∧
    ((expandFinish s7 ("abc") ResolverOutcome.failed rng0).nodes.getD 1
        dummyNode).data.isLoading = false ∧
    ((expandFinish s7 ("abc") ResolverOutcome.failed rng0).nodes.getD 1
        dummyNode).data.childCount = some 0 :=
  (C4_failure_state s7 ("abc") rng0 rng0).2.2.2 _
    (getD_mem_of_lt (by decide) dummyNode) rfl

/-- Counterexample to C5: the resolver returns `[]` for `def`; the claim's
terminality fails because a subsequent `handleNodeExpand("def")` passes the
guard and invokes the resolver again (`true` flags record resolver
invocations in both calls). -/
theorem C5_counterexample :
    (expandWith s7 ("def") (ResolverOutcome.ok []) rng0).2 = true ∧
    (expandWith (expandWith s7 ("def") (ResolverOutcome.ok []) rng0).1 ("def")
        (ResolverOutcome.ok []) rng0).2 = true := by
  decide

/-- C5 as amended: an empty resolver result marks the node
`isExpanded := true` with `childCount := some 0` and adds no nodes or edges,
but the outcome is not terminal: the id is not recorded in `expandedNodes`,
so a subsequent expand call passes the guard and reaches the resolver
again. -/
theorem C5_empty_result_state (s s1 : TreeState) (d : String) (rng : ℕ → ℚ)
    (hstart : expandStart s d = some s1) :
    (expandFinish s1 d (ResolverOutcome.ok []) rng).nodes.length = s.nodes.length ∧
    (expandFinish s1 d (ResolverOutcome.ok []) rng).edges = s.edges ∧
    (∀ n ∈ (expandFinish s1 d (ResolverOutcome.ok []) rng).nodes,
      n.data.datasetId = some d →
        n.data.isExpanded = true ∧ n.data.childCount = some 0) ∧
    d ∉ (expandFinish s1 d (ResolverOutcome.ok []) rng).expandedNodes ∧
    (expandStart (expandFinish s1 d (ResolverOutcome.ok []) rng) d).isSome = true := by
  obtain ⟨hval, hexp, hload, hs1⟩ := expandStart_eq_some hstart
  subst hs1
  refine ⟨?_, rfl, ?_, hexp, ?_⟩
  · show (markExpanded d 0 (setLoadingFlag d s.nodes)).length = s.nodes.length
    rw [markExpanded_length, setLoadingFlag_length]
  · intro n hn hd
    have hspec := markExpanded_spec d 0 _ n hn hd
    exact ⟨hspec.1, hspec.2.2⟩
  · show (expandStart { s with
      nodes := markExpanded d 0 (setLoadingFlag d s.nodes),
      loadingNodes := (insert d s.loadingNodes).erase d } d).isSome = true
    unfold expandStart
    rw [if_neg (by simp [hval]), if_neg ?hc]
    case hc =>
      rintro (hin | hin)
      · exact hexp hin
      · exact Finset.not_mem_erase d _ hin
    rfl

/-- Witness for C5's amended statement at the scenario state and dataset
`def`. -/
theorem C5_empty_result_state_witness :
    expandStart s7 ("def") = some ((expandStart s7 ("def")).getD initialState) ∧
    (expandStart (expandFinish ((expandStart s7 ("def")).getD initialState)
        ("def") (ResolverOutcome.ok []) rng0) ("def")).isSome = true :=
  ⟨rfl, (C5_empty_result_state s7 _ ("def") rng0 rfl).2.2.2.2⟩

/-- Counterexample to C6: after a resolver failure for `abc`, a subsequent
expand call on `abc` is not rejected — it invokes the resolver again
(second flag `true`) and, on success, even appends a new child node. -/
theorem C6_counterexample :
    (expandWith s7 ("abc") ResolverOutcome.failed rng0).2 = true ∧
    (expandWith (expandWith s7 ("abc") ResolverOutcome.failed rng0).1 ("abc")
        (ResolverOutcome.ok [dsX]) rng0).2 = true ∧
    (expandWith (expandWith s7 ("abc") ResolverOutcome.failed rng0).1 ("abc")
        (ResolverOutcome.ok [dsX]) rng0).1.nodes.length
      = (expandWith s7 ("abc") ResolverOutcome.failed rng0).1.nodes.length + 1 := by
  decide

/-- C6 as amended: after a failed expansion the node's `childCount` is
`some 0`, but the id ends up in neither `expandedNodes` nor `loadingNodes`,
and `handleNodeExpand` checks only those two sets and the id's shape — never
`childCount` — so a subsequent expand call on the failed node succeeds in
reaching the resolver instead of being rejected. -/
theorem C6_failed_node_retry (s s1 : TreeState) (d : String) (rng : ℕ → ℚ)
    (hstart : expandStart s d = some s1) :
    (∀ n ∈ (expandFinish s1 d ResolverOutcome.failed rng).nodes,
      n.data.datasetId = some d → n.data.childCount = some 0) ∧
    d ∉ (expandFinish s1 d ResolverOutcome.failed rng).expandedNodes ∧
    d ∉ (expandFinish s1 d ResolverOutcome.failed rng).loadingNodes ∧
    (expandStart (expandFinish s1 d ResolverOutcome.failed rng) d).isSome = true := by
  obtain ⟨hval, hexp, hload, hs1⟩ := expandStart_eq_some hstart
  subst hs1
  refine ⟨?_, hexp, ?_, ?_⟩
  · intro n hn hd
    exact (markExpanded_spec d 0 _ n hn hd).2.2
  · show d ∉ (insert d s.loadingNodes).erase d
    exact Finset.not_mem_erase d _
  · show (expandStart { s with
      nodes := markExpanded d 0 (setLoadingFlag d s.nodes),
      loadingNodes := (insert d s.loadingNodes).erase d } d).isSome = true
    unfold expandStart
    rw [if_neg (by simp [hval]), if_neg ?hc]
    case hc =>
      rintro (hin | hin)
      · exact hexp hin
      · exact Finset.not_mem_erase d _ hin
    rfl

/-- Witness for C6's amended statement at the scenario state and dataset
`abc`. -/
theorem C6_failed_node_retry_witness :
    expandStart s7 ("abc") = some ((expandStart s7 ("abc")).getD initialState) ∧
    (expandStart (expandFinish ((expandStart s7 ("abc")).getD initialState)
        ("abc") ResolverOutcome.failed rng0) ("abc")).isSome = true :=
  ⟨rfl, (C6_failed_node_retry s7 _ ("abc") rng0 rfl).2.2.2⟩

/-- Counterexample to C1: in `stateTwoParents` the same external dataset `D`
appears as a child under the two parents `p1` and `p2` (two distinct nodes).
The first expand of `D` invokes the resolver (`true`); the second is blocked
by the first's expanded status — it returns `false` and the identical state,
so only one resolver call and one subtree (a single new node) ever happen,
and the one call marked both `D`-nodes expanded. -/
theorem C1_counterexample :
    stateTwoParents.nodes.map Node.id
      = ["root", "p1", "p2", "child-p1-D", "child-p2-D"] ∧
    (expandWith stateTwoParents ("D") (ResolverOutcome.ok [dsX]) rng0).2 = true ∧
    (expandWith (expandWith stateTwoParents ("D") (ResolverOutcome.ok [dsX]) rng0).1
        ("D") (ResolverOutcome.ok [dsX]) rng0).2 = false ∧
    (expandWith (expandWith stateTwoParents ("D") (ResolverOutcome.ok [dsX]) rng0).1
        ("D") (ResolverOutcome.ok [dsX]) rng0).1
      = (expandWith stateTwoParents ("D") (ResolverOutcome.ok [dsX]) rng0).1 ∧
    (expandWith stateTwoParents ("D") (ResolverOutcome.ok [dsX]) rng0).1.nodes.length
      = stateTwoParents.nodes.length + 1 ∧
    ((expandWith stateTwoParents ("D") (ResolverOutcome.ok [dsX]) rng0).1.nodes.filter
        (fun n => n.data.datasetId == some ("D"))).map (fun n => n.data.isExpanded)
      = [true, true] :=
  ⟨by decide, by decide, by decide, rfl, by decide, by decide⟩

/-- C1 as amended: the expanded/pending guard is keyed by the external
dataset identifier alone, so once a dataset id has been expanded (under
whichever parent `find?` reaches first), expanding it again — in particular
from the other parent — is a silent no-op that performs no second resolver
call and changes no state. -/
theorem C1_second_parent_blocked (s s1 : TreeState) (d : String)
    (similar : List SimilarDataset) (rng rng2 : ℕ → ℚ)
    (outcome2 : ResolverOutcome)
    (hstart : expandStart s d = some s1) (hne : 0 < similar.length) :
    expandWith s d (ResolverOutcome.ok similar) rng
      = (expandFinish s1 d (ResolverOutcome.ok similar) rng, true) ∧
    expandWith (expandFinish s1 d (ResolverOutcome.ok similar) rng) d outcome2 rng2
      = (expandFinish s1 d (ResolverOutcome.ok similar) rng, false) := by
  constructor
  · unfold expandWith
    rw [hstart]
  · have hmem : d ∈ (expandFinish s1 d (ResolverOutcome.ok similar) rng).expandedNodes := by
      unfold expandFinish
      dsimp only
      rw [if_pos hne]
      cases s1.nodes.find? (fun n => n.data.datasetId == some d) <;>
        exact Finset.mem_insert_self d _
    have hnone : expandStart (expandFinish s1 d (ResolverOutcome.ok similar) rng) d
        = none := by
      unfold expandStart
      by_cases hv : validDatasetId d = false
      · rw [if_pos hv]
      · rw [if_neg hv, if_pos (Or.inl hmem)]
    unfold expandWith
    rw [hnone]

/-- Witness for C1's amended statement: expanding `D` a second time from the
second parent in `stateTwoParents` is the blocked call. -/
theorem C1_second_parent_blocked_witness :
    expandStart stateTwoParents ("D")
      = some ((expandStart stateTwoParents ("D")).getD initialState) ∧
    (0 : ℕ) < [dsX].length ∧
    expandWith (expandFinish ((expandStart stateTwoParents ("D")).getD initialState)
        ("D") (ResolverOutcome.ok [dsX]) rng0) ("D") (ResolverOutcome.ok [dsX]) rng0
      = (expandFinish ((expandStart stateTwoParents ("D")).getD initialState)
          ("D") (ResolverOutcome.ok [dsX]) rng0, false) :=
  ⟨rfl, by decide,
    (C1_second_parent_blocked stateTwoParents _ ("D") [dsX] rng0 rng0
      (ResolverOutcome.ok [dsX]) rfl (by decide)).2⟩

/-- The child batch has one node per resolver entry. -/
theorem childNodesFor_length (d : String) (parent : Node)
    (similar : List SimilarDataset) (rng : ℕ → ℚ) :
    (childNodesFor d parent similar rng).length = similar.length :=
  mapWithIndex_length _ 0 similar

/-- Reduction of the settling step in the successful non-empty case: lines
126-196 as one state equation. -/
theorem expandFinish_found (s : TreeState) (d : String)
    (similar : List SimilarDataset) (rng : ℕ → ℚ) (parent : Node)
    (hfind : s.nodes.find? (fun n => n.data.datasetId == some d) = some parent)
    (hne : 0 < similar.length) :
    expandFinish s d (ResolverOutcome.ok similar) rng
      = { s with
          nodes := markExpanded d (similar.length : ℤ) s.nodes ++
            childNodesFor d parent similar rng,
          edges := s.edges ++ similar.map (mkChildEdge d parent),
          expandedNodes := insert d s.expandedNodes,
          loadingNodes := s.loadingNodes.erase d } := by
  unfold expandFinish
  dsimp only
  rw [if_pos hne, hfind]

/-- The nodes a successful non-empty settle appends past the old length. -/
theorem expandFinish_new_nodes (s : TreeState) (d : String)
    (similar : List SimilarDataset) (rng : ℕ → ℚ) (parent : Node)
    (hfind : s.nodes.find? (fun n => n.data.datasetId == some d) = some parent)
    (hne : 0 < similar.length) :
    (expandFinish s d (ResolverOutcome.ok similar) rng).nodes.drop s.nodes.length
      = childNodesFor d parent similar rng := by
  rw [expandFinish_found s d similar rng parent hfind hne]
  dsimp only
  rw [← markExpanded_length d (similar.length : ℤ) s.nodes, List.drop_left]

/-- The edges a successful non-empty settle appends past the old length. -/
theorem expandFinish_new_edges (s : TreeState) (d : String)
    (similar : List SimilarDataset) (rng : ℕ → ℚ) (parent : Node)
    (hfind : s.nodes.find? (fun n => n.data.datasetId == some d) = some parent)
    (hne : 0 < similar.length) :
    (expandFinish s d (ResolverOutcome.ok similar) rng).edges.drop s.edges.length
      = similar.map (mkChildEdge d parent) := by
  rw [expandFinish_found s d similar rng parent hfind hne]
  dsimp only
  exact List.drop_left _ _

/-- Counterexample to C2: the node `child-abc-x1` (node id `child-abc-x1`,
external dataset id `x1`) is expanded; the new child's id is `child-x1-y1`,
derived from the parent's external dataset id, not
`child-child-abc-x1-y1` as the `child:{P.id}:{D}` scheme of the claim
requires. -/
theorem C2_counterexample :
    stateSecondGen.nodes.map Node.id = ["root", "abc", "child-abc-x1"] ∧
    (stateSecondGen.nodes.getD 2 dummyNode).id = "child-abc-x1" ∧
    (stateSecondGen.nodes.getD 2 dummyNode).data.datasetId = some ("x1") ∧
    (expandWith stateSecondGen ("x1") (ResolverOutcome.ok [dsY]) rng0).1.nodes.map Node.id
      = ["root", "abc", "child-abc-x1", "child-x1-y1"] ∧
    ¬ ("child-child-abc-x1-y1" ∈
        (expandWith stateSecondGen ("x1") (ResolverOutcome.ok [dsY]) rng0).1.nodes.map Node.id) :=
  ⟨by decide, by decide, by decide, by decide, by decide⟩

/-- C2 as amended: a successful non-empty commit for dataset id `d` whose
parent lookup finds node `P` adds exactly `n = len(similar)` nodes, whose
ids are `child-{d}-{Di}` — i.e. derived from the parent's external dataset
id `d`, which equals `P.id` only for first-generation nodes — and exactly
`n` edges, each sourced from `P.id` and targeting the matching new node. -/
theorem C2_commit_shape (s : TreeState) (d : String)
    (similar : List SimilarDataset) (rng : ℕ → ℚ) (parent : Node)
    (hfind : s.nodes.find? (fun n => n.data.datasetId == some d) = some parent)
    (hne : 0 < similar.length) :
    (expandFinish s d (ResolverOutcome.ok similar) rng).nodes.length
      = s.nodes.length + similar.length ∧
    (expandFinish s d (ResolverOutcome.ok similar) rng).edges.length
      = s.edges.length + similar.length ∧
    ((expandFinish s d (ResolverOutcome.ok similar) rng).nodes.drop
        s.nodes.length).map Node.id
      = similar.map (fun ds => childNodeId d ds.id) ∧
    ((expandFinish s d (ResolverOutcome.ok similar) rng).edges.drop
        s.edges.length).map Edge.source
      = similar.map (fun _ => parent.id) ∧
    ((expandFinish s d (ResolverOutcome.ok similar) rng).edges.drop
        s.edges.length).map Edge.target
      = similar.map (fun ds => childNodeId d ds.id) := by
  have hdropn := expandFinish_new_nodes s d similar rng parent hfind hne
  have hdrope := expandFinish_new_edges s d similar rng parent hfind hne
  rw [expandFinish_found s d similar rng parent hfind hne] at hdropn hdrope ⊢
  dsimp only at hdropn hdrope ⊢
  refine ⟨?_, ?_, ?_, ?_, ?_⟩
  · rw [List.length_append, markExpanded_length, childNodesFor_length]
  · rw [List.length_append, List.length_map]
  · rw [hdropn]
    unfold childNodesFor
    exact mapWithIndex_map_proj
      (fun i ds => mkChildNode d parent similar.length i ds (rng i))
      Node.id (fun ds => childNodeId d ds.id) (fun i a => rfl) 0 similar
  · rw [hdrope, List.map_map]
    rfl
  · rw [hdrope, List.map_map]
    rfl

/-- Witness for C2's amended statement at the second-generation state. -/
theorem C2_commit_shape_witness :
    stateSecondGen.nodes.find? (fun n => n.data.datasetId == some ("x1"))
      = some ((stateSecondGen.nodes.find?
          (fun n => n.data.datasetId == some ("x1"))).getD dummyNode) ∧
    (0 : ℕ) < [dsY].length ∧
    ((expandFinish stateSecondGen ("x1") (ResolverOutcome.ok [dsY]) rng0).nodes.drop
        stateSecondGen.nodes.length).map Node.id
      = [dsY].map (fun ds => childNodeId ("x1") ds.id) :=
  ⟨rfl, by decide,
    (C2_commit_shape stateSecondGen ("x1") [dsY] rng0 _ rfl (by decide)).2.2.1⟩

/-- Element `i` of `mapWithIndex f k l` is `f (k + i)` of element `i` of
`l`. -/
theorem mapWithIndex_getElem (f : ℕ → α → β) : ∀ (k : ℕ) (l : List α) (i : ℕ)
    (hi : i < l.length) (h : i < (mapWithIndex f k l).length),
    (mapWithIndex f k l).get ⟨i, h⟩ = f (k + i) (l.get ⟨i, hi⟩)
  | _, [], i, hi, _ => by simp at hi
  | k, a :: as, 0, _, _ => by simp [mapWithIndex]
  | k, a :: as, i + 1, hi, h => by
    have hi2 : i < as.length := by simpa using hi
    have h2 : i < (mapWithIndex f (k + 1) as).length := by
      simpa [mapWithIndex_length] using hi2
    simp only [mapWithIndex, List.get_cons_succ]
    rw [mapWithIndex_getElem f (k + 1) as i hi2 h2]
    congr 1
    omega

/-- The layout list has one position per child. -/
theorem placeChildren_length (p : Position) (n : ℕ) :
    (placeChildren p n).length = n := by
  simp [placeChildren]

/-- The `i`-th layout position is `childPosition`. -/
theorem placeChildren_getD (p : Position) (n i : ℕ) (h : i < n) (b : Position) :
    (placeChildren p n).getD i b = childPosition p n i := by
  have hlen : i < ((List.range n).map (childPosition p n)).length := by
    simpa using h
  unfold placeChildren
  rw [List.getD_eq_getElem _ _ hlen, List.getElem_map, List.getElem_range]

/-- The `i`-th layout position, `get` form. -/
theorem placeChildren_get (p : Position) (n i : ℕ)
    (h : i < (placeChildren p n).length) :
    (placeChildren p n).get ⟨i, h⟩ = childPosition p n i := by
  simp only [placeChildren, List.get_eq_getElem, List.getElem_map,
    List.getElem_range]

/-- C7: the layout is the stated pure function — identical inputs give
identical lists, the `i`-th of `n` children sits at
`(parent.x + (i - (n-1)/2) * SPACING_X, parent.y + ROW_HEIGHT)`, for three
children the middle one shares the parent's x, and the nodes appended by a
successful non-empty expansion are placed exactly at
`placeChildren parent.position n`. -/
theorem C7_child_placement (p q : Position) (n m i : ℕ)
    (s : TreeState) (d : String) (similar : List SimilarDataset)
    (rng : ℕ → ℚ) (parent : Node)
    (hpq : p = q) (hnm : n = m) (hi : i < n)
    (hfind : s.nodes.find? (fun nd => nd.data.datasetId == some d) = some parent)
    (hne : 0 < similar.length) :
    placeChildren p n = placeChildren q m ∧
    (placeChildren p n).length = n ∧
    (placeChildren p n).getD i dummyPos
      = { x := p.x + ((i : ℚ) - ((n : ℚ) - 1) / 2) * SPACING_X,
          y := p.y + ROW_HEIGHT } ∧
    (placeChildren p 3).getD 1 dummyPos = { x := p.x, y := p.y + ROW_HEIGHT } ∧
    ((expandFinish s d (ResolverOutcome.ok similar) rng).nodes.drop
        s.nodes.length).map Node.position
      = placeChildren parent.position similar.length := by
  refine ⟨by rw [hpq, hnm], placeChildren_length p n,
    placeChildren_getD p n i hi dummyPos, ?_, ?_⟩
  · rw [placeChildren_getD p 3 1 (by norm_num) dummyPos]
    unfold childPosition
    simp only [Position.mk.injEq]
    refine ⟨?_, by trivial⟩
    rw [SPACING_X]
    push_cast
    ring
  · rw [expandFinish_new_nodes s d similar rng parent hfind hne]
    refine List.ext_get ?_ ?_
    · unfold childNodesFor
      rw [List.length_map, mapWithIndex_length, placeChildren_length]
    · intro j h1 h2
      have hj : j < similar.length := by
        simpa [childNodesFor, mapWithIndex_length] using h1
      have h1m : j < (childNodesFor d parent similar rng).length := by
        simpa [List.length_map] using h1
      have hstep : (List.map Node.position (childNodesFor d parent similar rng)).get ⟨j, h1⟩
          = Node.position ((childNodesFor d parent similar rng).get ⟨j, h1m⟩) := by
        simp [List.get_eq_getElem, List.getElem_map]
      rw [hstep]
      unfold childNodesFor at h1m ⊢
      rw [mapWithIndex_getElem
        (fun i ds => mkChildNode d parent similar.length i ds (rng i)) 0 similar j hj h1m]
      rw [placeChildren_get parent.position similar.length j h2]
      simp only [Nat.zero_add]
      rfl

/-- Witness for C7 at a concrete position, child index 1 of 3, and the
second-generation expansion. -/
theorem C7_child_placement_witness :
    stateSecondGen.nodes.find? (fun nd => nd.data.datasetId == some ("x1"))
      = some ((stateSecondGen.nodes.find?
          (fun nd => nd.data.datasetId == some ("x1"))).getD dummyNode) ∧
    (1 : ℕ) < 3 ∧
    (placeChildren dummyPos 3).getD 1 dummyPos
      = { x := dummyPos.x, y := dummyPos.y + ROW_HEIGHT } :=
  ⟨rfl, by norm_num,
    (C7_child_placement dummyPos dummyPos 3 3 1 stateSecondGen ("x1") [dsY] rng0
      _ rfl rfl (by norm_num) rfl (by decide)).2.2.2.1⟩

/-- C8: a reset always yields exactly one root node, one dataset node per
hit, and one edge per hit from the root to that hit's node — for the empty
hit list the root alone. -/
theorem C8_reset_shape (query : String) (hits : List RetrievedSource)
    (s : TreeState) :
    (handleReset query hits s).nodes.length = hits.length + 1 ∧
    ((handleReset query hits s).nodes.filter (fun n => n.data.isRoot)).length = 1 ∧
    (handleReset query hits s).edges.length = hits.length ∧
    ∀ i, i < hits.length →
      ((handleReset query hits s).edges.getD i dummyEdge).source = "root" ∧
      ((handleReset query hits s).edges.getD i dummyEdge).target
        = ((handleReset query hits s).nodes.getD (i + 1) dummyNode).id := by
  have hr : handleReset query hits s
      = { s with
          expandedNodes := ∅, loadingNodes := ∅,
          nodes := rootNode query :: mapWithIndex (hitNode hits.length) 0 hits,
          edges := mapWithIndex (fun i h => hitEdge h i) 0 hits,
          isInitialized := true } := rfl
  rw [hr]
  dsimp only
  refine ⟨?_, ?_, mapWithIndex_length _ 0 hits, ?_⟩
  · rw [List.length_cons, mapWithIndex_length]
  · rw [List.filter_cons]
    have hroot : (fun n => n.data.isRoot) (rootNode query) = true := rfl
    rw [if_pos hroot,
      mapWithIndex_filter_none (hitNode hits.length) _ (fun i a => rfl) 0 hits]
    rfl
  · intro i hi
    constructor
    · rw [mapWithIndex_getD (fun j h => hitEdge h j) 0 i hits dummyHit dummyEdge hi]
      rfl
    · rw [mapWithIndex_getD (fun j h => hitEdge h j) 0 i hits dummyHit dummyEdge hi,
        List.getD_cons_succ,
        mapWithIndex_getD (hitNode hits.length) 0 i hits dummyHit dummyNode hi]
      rfl

/-- Witness for C8 at the scenario hit list and at the empty hit list. -/
theorem C8_reset_shape_witness :
    (0 : ℕ) < ([hitAbc, hitDef] : List RetrievedSource).length ∧
    ((handleReset ("climate data") [hitAbc, hitDef] initialState).edges.getD 0
        dummyEdge).source = "root" ∧
    (handleReset ("q") ([] : List RetrievedSource) initialState).nodes.length
      = List.length ([] : List RetrievedSource) + 1 :=
  ⟨by decide,
    ((C8_reset_shape ("climate data") [hitAbc, hitDef] initialState).2.2.2 0
      (by decide)).1,
    (C8_reset_shape ("q") [] initialState).1⟩

/-- C10: each created child's mock `childCount` is `floor(r*4)+1 ∈ {1,2,3,4}`
for a draw `r ∈ [0,1)`, and the construction is not deterministic: the same
state, dataset id and resolver result under two different random streams
yield different snapshots, differing exactly in a `childCount` field. -/
theorem C10_random_child_count :
    (∀ r : ℚ, 0 ≤ r → r < 1 →
      mockChildCount r = 1 ∨ mockChildCount r = 2 ∨
        mockChildCount r = 3 ∨ mockChildCount r = 4) ∧
    (∀ (s : TreeState) (d : String) (similar : List SimilarDataset)
        (rng : ℕ → ℚ), (∀ i, 0 ≤ rng i ∧ rng i < 1) →
      ∀ n ∈ (expandFinish s d (ResolverOutcome.ok similar) rng).nodes.drop
          s.nodes.length,
        n.data.childCount = some 1 ∨ n.data.childCount = some 2 ∨
          n.data.childCount = some 3 ∨ n.data.childCount = some 4) ∧
    ((expandWith s7 ("abc") (ResolverOutcome.ok [dsX]) rng0).1.nodes.getD 3
        dummyNode).data.childCount = some 1 ∧
    ((expandWith s7 ("abc") (ResolverOutcome.ok [dsX]) rngHalf).1.nodes.getD 3
        dummyNode).data.childCount = some 3 ∧
    (expandWith s7 ("abc") (ResolverOutcome.ok [dsX]) rng0).1
      ≠ (expandWith s7 ("abc") (ResolverOutcome.ok [dsX]) rngHalf).1 := by
  have hrange : ∀ r : ℚ, 0 ≤ r → r < 1 →
      mockChildCount r = 1 ∨ mockChildCount r = 2 ∨
        mockChildCount r = 3 ∨ mockChildCount r = 4 := by
    intro r h0 h1
    have h04 : (0 : ℚ) ≤ r * 4 := mul_nonneg h0 (by norm_num)
    have hlt : r * 4 < 4 := by
      have hm := mul_lt_mul_of_pos_right h1 (show (0 : ℚ) < 4 by norm_num)
      simpa using hm
    have hf0 : 0 ≤ Int.floor (r * 4) := Int.floor_nonneg.mpr h04
    have hf4 : Int.floor (r * 4) < 4 := Int.floor_lt.mpr (by push_cast; exact hlt)
    unfold mockChildCount
    omega
  have hzero : ((expandWith s7 ("abc") (ResolverOutcome.ok [dsX]) rng0).1.nodes.getD 3
      dummyNode).data.childCount = some 1 := by
    show some (mockChildCount (rng0 0)) = some 1
    norm_num [mockChildCount, rng0]
  have hhalf : ((expandWith s7 ("abc") (ResolverOutcome.ok [dsX]) rngHalf).1.nodes.getD 3
      dummyNode).data.childCount = some 3 := by
    show some (mockChildCount (rngHalf 0)) = some 3
    norm_num [mockChildCount, rngHalf]
  refine ⟨hrange, ?_, hzero, hhalf, ?_⟩
  · intro s d similar rng hr n hn
    by_cases hne : 0 < similar.length
    · cases hfind : s.nodes.find? (fun nd => nd.data.datasetId == some d) with
      | none =>
        have hnil : (expandFinish s d (ResolverOutcome.ok similar) rng).nodes.drop
            s.nodes.length = [] := by
          have heq : (expandFinish s d (ResolverOutcome.ok similar) rng).nodes
              = s.nodes := by
            unfold expandFinish
            dsimp only
            rw [if_pos hne, hfind]
          rw [heq, List.drop_length]
        rw [hnil] at hn
        simp at hn
      | some parent =>
        rw [expandFinish_new_nodes s d similar rng parent hfind hne] at hn
        obtain ⟨i, a, _, rfl⟩ := mapWithIndex_mem _ 0 similar hn
        have hi := hr i
        have hcc := hrange (rng i) hi.1 hi.2
        show some (mockChildCount (rng i)) = some 1 ∨
          some (mockChildCount (rng i)) = some 2 ∨
          some (mockChildCount (rng i)) = some 3 ∨
          some (mockChildCount (rng i)) = some 4
        rcases hcc with h | h | h | h <;> simp [h]
    · have hlen0 : similar.length = 0 := by omega
      have hnil2 : similar = [] := List.eq_nil_of_length_eq_zero hlen0
      subst hnil2
      have hnil : (expandFinish s d (ResolverOutcome.ok []) rng).nodes.drop
          s.nodes.length = [] := by
        show (markExpanded d 0 s.nodes).drop s.nodes.length = []
        rw [← markExpanded_length d 0 s.nodes, List.drop_length]
      rw [hnil] at hn
      simp at hn
  · intro heq
    rw [heq] at hzero
    have hbad := hzero.symm.trans hhalf
    injection hbad with hbad2
    exact absurd hbad2 (by norm_num)

/-- Witness for C10 at the draw `1/2`. -/
theorem C10_random_child_count_witness :
    (0 : ℚ) ≤ 1 / 2 ∧ (1 / 2 : ℚ) < 1 ∧
    (mockChildCount (1 / 2) = 1 ∨ mockChildCount (1 / 2) = 2 ∨
      mockChildCount (1 / 2) = 3 ∨ mockChildCount (1 / 2) = 4) :=
  ⟨by norm_num, by norm_num,
    C10_random_child_count.1 (1 / 2) (by norm_num) (by norm_num)⟩

end GovChat
